import Mathlib

/-
Shallow embedding of the backend of the capability-discovery broker:
`src/backend/registry.py`, `src/backend/discovery.py`, `src/backend/main.py`.

Modelling conventions:
- Python `float` (binary64) is modelled as an exact rational (`ℚ`); every
  numeric value exercised in this development is exactly representable, so
  rational arithmetic coincides with the machine arithmetic on them.
- External collaborators (search-path lookup, the bounded process-run
  primitive, the JSON decoder of the standard library, the platform module,
  the clock and the random source) are supplied by an `Env` record, as the
  spec's collaborator contract prescribes.
- Python exceptions are values of `PyErr`; fallible code runs in
  `Except PyErr`.  A `try/except` in the source becomes an explicit `match`.
-/

/-- A Python runtime value as it appears in parameter bags and JSON data. -/
inductive PyVal : Type
  | pstr (s : String)
  | pint (n : Int)
  | pfloat (q : ℚ)
  | pbool (b : Bool)
  | pnone
  | plist (xs : List PyVal)
  | pdict (kvs : List (String × PyVal))
deriving Repr

/-- A Python exception carrying its `str(e)` rendering. -/
inductive PyErr : Type
  | valueError (msg : String)
  | typeError (msg : String)
  | timeoutExpired (msg : String)
  | fileNotFoundError (msg : String)
  | zeroDivisionError (msg : String)
  | attributeError (msg : String)
  | modelLimit (msg : String)
deriving Repr, DecidableEq

/-- `str(e)` for an exception value. -/
def PyErr.toMsg : PyErr → String
  | .valueError m => m
  | .typeError m => m
  | .timeoutExpired m => m
  | .fileNotFoundError m => m
  | .zeroDivisionError m => m
  | .attributeError m => m
  | .modelLimit m => m

/-- Python `str.strip()` (both-ends whitespace strip). -/
def pyStrip (s : String) : String :=
  String.mk (((s.toList.dropWhile Char.isWhitespace).reverse.dropWhile
    Char.isWhitespace).reverse)

/-- Worker for `pySplitWs`: collect the maximal runs of non-whitespace
characters; `acc` holds the current token reversed. -/
def splitWsAux : List Char → List Char → List String
  | [], acc => if acc.isEmpty then [] else [String.mk acc.reverse]
  | c :: rest, acc =>
      if c.isWhitespace then
        if acc.isEmpty then splitWsAux rest []
        else String.mk acc.reverse :: splitWsAux rest []
      else splitWsAux rest (c :: acc)

/-- Python `str.split()` with no argument: split on whitespace runs, dropping
empty tokens. -/
def pySplitWs (s : String) : List String := splitWsAux s.toList []

/-- Python `s.startswith(pre)`. -/
def pyStartsWith (s pre : String) : Bool := pre.toList.isPrefixOf s.toList

/-- Python `s.split('\n')[0]`: the prefix of `s` up to (excluding) its first
newline — the whole of `s` when it has none. -/
def firstLine (s : String) : String :=
  String.mk (s.toList.takeWhile (fun c => c ≠ '\n'))

/-- Python `str.upper()` (ASCII case mapping, the alphabet this program uses). -/
def pyUpper (s : String) : String := String.mk (s.toList.map Char.toUpper)

/-- Python `str.lower()` (ASCII case mapping, the alphabet this program uses). -/
def pyLower (s : String) : String := String.mk (s.toList.map Char.toLower)

/-- Helper for Python `str.replace`: left-to-right non-overlapping replacement,
fuelled by the length of the subject (sufficient when `old` is nonempty). -/
def replaceFuel (old new : List Char) : Nat → List Char → List Char
  | _, [] => []
  | 0, s => s
  | Nat.succ fuel, c :: rest =>
      if old.isPrefixOf (c :: rest) then
        new ++ replaceFuel old new fuel ((c :: rest).drop old.length)
      else
        c :: replaceFuel old new fuel rest

/-- Python `text.replace(old, new)`: every non-overlapping occurrence replaced
left to right; the empty pattern matches at every position (including the end). -/
def pyReplace (s old new : String) : String :=
  if old.toList.isEmpty then
    String.mk (new.toList ++ (s.toList.map (fun c => c :: new.toList)).flatten)
  else
    String.mk (replaceFuel old.toList new.toList s.toList.length s.toList)

/-- Numeric value of a run of decimal digits. -/
def digitsToNat (ds : List Char) : Nat :=
  ds.foldl (fun a c => a * 10 + (c.toNat - 48)) 0

/-- Python `float(s)` on a string: optional sign, then `digits`, `digits.digits`
or `.digits`, surrounded by optional whitespace.  (The exponent and the
`inf`/`nan` forms of the full literal grammar are outside the fragment this
program exercises.)  `none` models the `ValueError` raise. -/
def parseFloatLit (s : String) : Option ℚ :=
  let cs := (pyStrip s).toList
  let signAndRest : ℚ × List Char :=
    match cs with
    | '-' :: r => (-1, r)
    | '+' :: r => (1, r)
    | r => (1, r)
  let sign := signAndRest.1
  let afterSign := signAndRest.2
  let ipSplit := afterSign.span Char.isDigit
  let ip := ipSplit.1
  match ipSplit.2 with
  | [] => if ip.isEmpty then none else some (sign * digitsToNat ip)
  | '.' :: r =>
      let fpSplit := r.span Char.isDigit
      let fp := fpSplit.1
      if fpSplit.2.isEmpty then
        if ip.isEmpty && fp.isEmpty then none
        else some (sign * ((digitsToNat ip : ℚ) + (digitsToNat fp : ℚ) / (10 ^ fp.length)))
      else none
  | _ => none

/-- Python `float(x)` on an arbitrary value. -/
def pyFloat : PyVal → Except PyErr ℚ
  | .pint n => .ok (n : ℚ)
  | .pfloat q => .ok q
  | .pbool b => .ok (if b then 1 else 0)
  | .pstr s =>
      match parseFloatLit s with
      | some q => .ok q
      | none => .error (.valueError ("could not convert string to float: \x27" ++ s ++ "\x27"))
  | .pnone => .error (.typeError "float() argument must be a string or a real number, not NoneType")
  | .plist _ => .error (.typeError "float() argument must be a string or a real number, not list")
  | .pdict _ => .error (.typeError "float() argument must be a string or a real number, not dict")

/-- Left-pad a natural number's decimal digits with zeros to width `k`. -/
def natPad (n k : Nat) : String :=
  let s := toString n
  String.mk (List.replicate (k - s.length) '0') ++ s

/-- Drop trailing zeros of a fractional-digit string, keeping at least one digit. -/
def stripTrailingZeros (s : String) : String :=
  let l := (s.toList.reverse.dropWhile (fun c => c = '0')).reverse
  if l.isEmpty then "0" else String.mk l

/-- Python `str(x)` for a float `x`, on the rational model: integral values
render as `n.0`, other decimally-finite values as their shortest decimal
expansion (Python prints the shortest decimal that round-trips; on the exact
values this program computes the two coincide). -/
def pyFloatStr (q : ℚ) : String :=
  if q.den = 1 then toString q.num ++ ".0"
  else
    match (List.range 40).find? (fun k => decide (q.den ∣ 10 ^ (k + 1))) with
    | some k₀ =>
        let k := k₀ + 1
        let scaled := q.num.natAbs * 10 ^ k / q.den
        let ipart := scaled / 10 ^ k
        let fpart := scaled % 10 ^ k
        (if q.num < 0 then "-" else "") ++ toString ipart ++ "." ++
          stripTrailingZeros (natPad fpart k)
    | none => toString q

mutual

/-- Python `repr(x)` (as used by `str` inside containers). -/
def pyRepr : PyVal → String
  | .pstr s => "\x27" ++ s ++ "\x27"
  | .pint n => toString n
  | .pfloat q => pyFloatStr q
  | .pbool b => if b then "True" else "False"
  | .pnone => "None"
  | .plist xs => "[" ++ pyReprList xs ++ "]"
  | .pdict kvs => "\x7b" ++ pyReprDict kvs ++ "\x7d"

/-- Comma-separated `repr` of list elements. -/
def pyReprList : List PyVal → String
  | [] => ""
  | [x] => pyRepr x
  | x :: y :: rest => pyRepr x ++ ", " ++ pyReprList (y :: rest)

/-- Comma-separated `repr` of dict items. -/
def pyReprDict : List (String × PyVal) → String
  | [] => ""
  | [kv] => "\x27" ++ kv.1 ++ "\x27: " ++ pyRepr kv.2
  | kv :: p :: rest => "\x27" ++ kv.1 ++ "\x27: " ++ pyRepr kv.2 ++ ", " ++ pyReprDict (p :: rest)

end

/-- Python `str(x)`: a string renders as itself, anything else as its `repr`. -/
def pyStr : PyVal → String
  | .pstr s => s
  | v => pyRepr v

mutual

/-- `json.dumps(x, indent=2)` at nesting depth `lvl` (string escaping is not
exercised by this program's data). -/
def pyDumps : PyVal → Nat → String
  | .pstr s, _ => "\"" ++ s ++ "\""
  | .pint n, _ => toString n
  | .pfloat q, _ => pyFloatStr q
  | .pbool b, _ => if b then "true" else "false"
  | .pnone, _ => "null"
  | .plist [], _ => "[]"
  | .plist (x :: xs), lvl =>
      "[\n" ++ pyDumpsList (x :: xs) (lvl + 1) ++ "\n" ++
        String.mk (List.replicate (lvl * 2) ' ') ++ "]"
  | .pdict [], _ => "\x7b\x7d"
  | .pdict (kv :: kvs), lvl =>
      "\x7b\n" ++ pyDumpsDict (kv :: kvs) (lvl + 1) ++ "\n" ++
        String.mk (List.replicate (lvl * 2) ' ') ++ "\x7d"

/-- Indented, comma-separated serialisation of array elements. -/
def pyDumpsList : List PyVal → Nat → String
  | [], _ => ""
  | [x], lvl => String.mk (List.replicate (lvl * 2) ' ') ++ pyDumps x lvl
  | x :: y :: rest, lvl =>
      String.mk (List.replicate (lvl * 2) ' ') ++ pyDumps x lvl ++ ",\n" ++
        pyDumpsList (y :: rest) lvl

/-- Indented, comma-separated serialisation of object members. -/
def pyDumpsDict : List (String × PyVal) → Nat → String
  | [], _ => ""
  | [kv], lvl =>
      String.mk (List.replicate (lvl * 2) ' ') ++ "\"" ++ kv.1 ++ "\": " ++ pyDumps kv.2 lvl
  | kv :: p :: rest, lvl =>
      String.mk (List.replicate (lvl * 2) ' ') ++ "\"" ++ kv.1 ++ "\": " ++ pyDumps kv.2 lvl
        ++ ",\n" ++ pyDumpsDict (p :: rest) lvl

end

/-- Python truthiness, as in `if command:`. -/
def pyTruthy : PyVal → Bool
  | .pstr s => s ≠ ""
  | .pint n => n ≠ 0
  | .pfloat q => q ≠ 0
  | .pbool b => b
  | .pnone => false
  | .plist xs => ¬ xs.isEmpty
  | .pdict kvs => ¬ kvs.isEmpty

/-- Outcome of a completed `subprocess.run(..., capture_output=True, text=True)`. -/
structure RunResult where
  returncode : Int
  stdout : String
  stderr : String
deriving Repr, DecidableEq

/-- The host-environment collaborators: search-path lookup, the bounded
process-run primitive (timeout and other failures raise, as `subprocess.run`
does), the standard-library JSON decoder, the `platform` module snapshot, the
clock and the random source. -/
structure Env where
  which : String → Option String
  run : List String → Nat → Except PyErr RunResult
  platformSystem : String
  platformRelease : String
  platformVersion : String
  platformMachine : String
  platformProcessor : String
  jsonLoads : String → Except String PyVal
  randomUniform : ℚ → ℚ → ℚ
  nowIso : String

/-- `registry.EndpointMetadata`: metadata for a discovered endpoint. -/
structure EndpointMetadata where
  id : String
  name : String
  description : String
  category : String
  parameters : List (String × PyVal)
  discovered_at : String
deriving Repr

/-- The state of `registry.EndpointRegistry`: the `_endpoints` dict, as an
insertion-ordered key/value list (Python dict keys are unique; list states
reachable from the empty registry keep their keys pairwise distinct). -/
abbrev Registry := List (String × EndpointMetadata)

namespace EndpointRegistry

/-- `register`: Python dict assignment `self._endpoints[endpoint.id] = endpoint` —
replace in place when the key is present, append otherwise. -/
def register (reg : Registry) (endpoint : EndpointMetadata) : Registry :=
  if reg.any (fun p => p.1 == endpoint.id) then
    reg.map (fun p => if p.1 == endpoint.id then (endpoint.id, endpoint) else p)
  else
    reg ++ [(endpoint.id, endpoint)]

/-- `unregister`: delete the entry when the key is present, otherwise no-op. -/
def unregister (reg : Registry) (endpoint_id : String) : Registry :=
  if reg.any (fun p => p.1 == endpoint_id) then
    reg.eraseP (fun p => p.1 == endpoint_id)
  else
    reg

/-- `get`: `self._endpoints.get(endpoint_id)`. -/
def get (reg : Registry) (endpoint_id : String) : Option EndpointMetadata :=
  (reg.find? (fun p => p.1 == endpoint_id)).map Prod.snd

/-- `get_all`: `list(self._endpoints.values())`. -/
def get_all (reg : Registry) : List EndpointMetadata :=
  reg.map Prod.snd

/-- `get_by_category`. -/
def get_by_category (reg : Registry) (category : String) : List EndpointMetadata :=
  (reg.map Prod.snd).filter (fun ep => ep.category == category)

/-- `clear`. -/
def clear : Registry := []

/-- `count`: `len(self._endpoints)`. -/
def count (reg : Registry) : Nat := reg.length

end EndpointRegistry

/-
`src/backend/discovery.py` — the discovery engine.  Every probe's fallible
external call (`subprocess.run`) sits under a `try/except` in the source
(`_get_version`, `discover_git_tools`), so each probe denotes a total function
on registry states; the `except Exception: pass` blocks appear below as the
`.error` arms of `match`.
-/

namespace SystemDiscovery

open EndpointRegistry

/-- The 14 built-in sample/demo endpoints of `discover_sample_modules`,
stamped with the discovery-time clock. -/
def sampleModules (now : String) : List EndpointMetadata :=
  [ ⟨"sample_text_uppercase", "Text to Uppercase", "Converts text to uppercase",
      "Text Processing", [("input", .pstr "text")], now⟩,
    ⟨"sample_text_lowercase", "Text to Lowercase", "Converts text to lowercase",
      "Text Processing", [("input", .pstr "text")], now⟩,
    ⟨"sample_text_reverse", "Reverse Text", "Reverses the order of characters in text",
      "Text Processing", [("input", .pstr "text")], now⟩,
    ⟨"sample_text_word_count", "Count Words", "Counts the number of words in text",
      "Text Processing", [("input", .pstr "text")], now⟩,
    ⟨"sample_math_add", "Add Numbers", "Adds two numbers together",
      "Math Operations", [("a", .pint 0), ("b", .pint 0)], now⟩,
    ⟨"sample_math_multiply", "Multiply Numbers", "Multiplies two numbers together",
      "Math Operations", [("a", .pint 1), ("b", .pint 1)], now⟩,
    ⟨"sample_math_power", "Power", "Raises a number to a power",
      "Math Operations", [("base", .pint 2), ("exponent", .pint 2)], now⟩,
    ⟨"sample_data_json_parse", "Parse JSON", "Parses a JSON string into an object",
      "Data Processing", [("json_string", .pstr "\x7b\x7d")], now⟩,
    ⟨"sample_data_json_stringify", "Stringify JSON", "Converts an object to a JSON string",
      "Data Processing", [("data", .pdict [])], now⟩,
    ⟨"sample_util_delay", "Delay", "Waits for a specified number of seconds",
      "Utilities", [("seconds", .pint 1)], now⟩,
    ⟨"sample_util_timestamp", "Get Timestamp", "Gets the current timestamp",
      "Utilities", [], now⟩,
    ⟨"sample_util_random", "Random Number", "Generates a random number between min and max",
      "Utilities", [("min", .pint 0), ("max", .pint 100)], now⟩,
    ⟨"sample_string_concat", "Concatenate Strings", "Combines two strings together",
      "Text Processing", [("str1", .pstr ""), ("str2", .pstr "")], now⟩,
    ⟨"sample_string_replace", "Replace Text", "Replaces occurrences of text in a string",
      "Text Processing", [("text", .pstr ""), ("old", .pstr ""), ("new", .pstr "")], now⟩ ]

/-- `discover_sample_modules`: unconditionally register all 14 sample endpoints. -/
def discover_sample_modules (env : Env) (reg : Registry) : Registry :=
  (sampleModules env.nowIso).foldl register reg

/-- `_get_version`: run `<command> --version` bounded at 2 seconds; on zero exit
the stripped standard output's first line, otherwise (nonzero exit, exception,
timeout) the literal `"unknown"`. -/
def _get_version (env : Env) (command : String) : String :=
  match env.run [command, "--version"] 2 with
  | .ok result =>
      if result.returncode = 0 then firstLine (pyStrip result.stdout)
      else "unknown"
  | .error _ => "unknown"

/-- The `common_tools` allow-list of `discover_common_tools`:
(executable, name, description). -/
def common_tools : List (String × String × String) :=
  [ ("python", "Python", "Python interpreter"),
    ("node", "Node.js", "Node.js runtime"),
    ("npm", "NPM", "Node Package Manager"),
    ("git", "Git", "Git version control"),
    ("docker", "Docker", "Docker container platform"),
    ("kubectl", "Kubernetes", "Kubernetes CLI") ]

/-- `discover_common_tools`: register each allow-listed executable present on
the search path, with its command and queried version as parameters. -/
def discover_common_tools (env : Env) (reg : Registry) : Registry :=
  common_tools.foldl
    (fun r t =>
      match env.which t.1 with
      | some _ =>
          register r ⟨"tool_" ++ t.1, t.2.1, t.2.2, "Tools",
            [("command", .pstr t.1), ("version", .pstr (_get_version env t.1))], env.nowIso⟩
      | none => r)
    reg

/-- The `python_tools` allow-list of `discover_python_tools`. -/
def python_tools : List (String × String × String) :=
  [ ("pip", "pip", "Python package installer"),
    ("pipenv", "Pipenv", "Python dependency management"),
    ("poetry", "Poetry", "Python dependency and package management"),
    ("black", "Black", "Python code formatter"),
    ("flake8", "Flake8", "Python linter"),
    ("pytest", "pytest", "Python testing framework") ]

/-- `discover_python_tools`. -/
def discover_python_tools (env : Env) (reg : Registry) : Registry :=
  python_tools.foldl
    (fun r t =>
      match env.which t.1 with
      | some _ =>
          register r ⟨"python_" ++ t.1, t.2.1, t.2.2, "Python Tools",
            [("command", .pstr t.1)], env.nowIso⟩
      | none => r)
    reg

/-- The `node_tools` allow-list of `discover_node_tools`. -/
def node_tools : List (String × String × String) :=
  [ ("yarn", "Yarn", "Yarn package manager"),
    ("pnpm", "pnpm", "pnpm package manager"),
    ("npx", "npx", "Execute npm packages"),
    ("tsc", "TypeScript Compiler", "TypeScript compiler") ]

/-- `discover_node_tools`. -/
def discover_node_tools (env : Env) (reg : Registry) : Registry :=
  node_tools.foldl
    (fun r t =>
      match env.which t.1 with
      | some _ =>
          register r ⟨"node_" ++ t.1, t.2.1, t.2.2, "Node.js Tools",
            [("command", .pstr t.1)], env.nowIso⟩
      | none => r)
    reg

/-- `discover_git_tools`: register `git_repo` only when `git` is on the path
and `git rev-parse --is-inside-work-tree` (2-second bound) exits zero; the
`try/except Exception: pass` around the query appears as the `.error` arm. -/
def discover_git_tools (env : Env) (reg : Registry) : Registry :=
  match env.which "git" with
  | some _ =>
      match env.run ["git", "rev-parse", "--is-inside-work-tree"] 2 with
      | .ok result =>
          if result.returncode = 0 then
            register reg ⟨"git_repo", "Git Repository",
              "Current directory is a Git repository", "Git",
              [("is_repo", .pstr "true")], env.nowIso⟩
          else reg
      | .error _ => reg
  | none => reg

/-- `discover_system_info`: unconditionally register the `system_info`
endpoint carrying the platform snapshot. -/
def discover_system_info (env : Env) (reg : Registry) : Registry :=
  register reg ⟨"system_info", "System Information",
    "System: " ++ env.platformSystem ++ " " ++ env.platformRelease, "System",
    [("system", .pstr env.platformSystem), ("release", .pstr env.platformRelease),
     ("version", .pstr env.platformVersion), ("machine", .pstr env.platformMachine),
     ("processor", .pstr env.platformProcessor)], env.nowIso⟩

/-- `discover_all`: the fixed probe sequence — samples, common tools, Python
tools, Node tools, git context, system info. -/
def discover_all (env : Env) (reg : Registry) : Registry :=
  discover_system_info env
    (discover_git_tools env
      (discover_node_tools env
        (discover_python_tools env
          (discover_common_tools env
            (discover_sample_modules env reg)))))

end SystemDiscovery

/-
`src/backend/main.py` — the execution dispatcher.
-/

/-- `ExecuteResponse`: the uniform execution result. -/
structure ExecuteResponse where
  success : Bool
  message : String
  output : Option String := none
deriving Repr, DecidableEq

/-- `fastapi.HTTPException` as raised by the boundary. -/
structure HTTPException where
  status_code : Nat
  detail : String
deriving Repr, DecidableEq

/-- `params.get(key, dflt)` on a parameter bag. -/
def pget (params : List (String × PyVal)) (key : String) (dflt : PyVal) : PyVal :=
  match params.find? (fun p => p.1 == key) with
  | some p => p.2
  | none => dflt

/-- Python `base ** exponent` on the rational float model: defined for
integral exponents (every power this program's claims exercise); a
non-integral exponent leaves the rational model and is flagged as such. -/
def pyPow (base exponent : ℚ) : Except PyErr ℚ :=
  if exponent.den = 1 then
    if 0 ≤ exponent.num then .ok (base ^ exponent.num.toNat)
    else if base = 0 then
      .error (.zeroDivisionError "0.0 cannot be raised to a negative power")
    else .ok (base⁻¹ ^ (-exponent.num).toNat)
  else .error (.modelLimit "non-integral exponent outside the rational float model")

/-- The body of the `try:` block of `execute_endpoint` — strategy selection by
id prefix and the per-strategy behaviour.  An uncaught Python exception is an
`Except.error`; the inner `try/except` of the `git_repo` and JSON branches
appear as explicit `match`es. -/
def executeStrategies (env : Env) (endpoint : EndpointMetadata) (endpoint_id : String)
    (request : Option (List (String × PyVal))) : Except PyErr ExecuteResponse :=
  if pyStartsWith endpoint_id "tool_" || pyStartsWith endpoint_id "python_"
      || pyStartsWith endpoint_id "node_" then do
    let commandVal := pget endpoint.parameters "command" (.pstr endpoint_id)
    let argv ←
      if pyTruthy commandVal then
        match commandVal with
        | .pstr c => Except.ok [c, "--version"]
        | _ => Except.error (.typeError "expected str, bytes or os.PathLike object")
      else Except.ok [endpoint_id]
    let result ← env.run argv 5
    if result.returncode = 0 then
      Except.ok ⟨true, "Successfully executed " ++ endpoint.name, some result.stdout⟩
    else
      Except.ok ⟨false, "Execution failed: " ++ result.stderr, some result.stderr⟩
  else if endpoint_id = "system_info" then
    Except.ok ⟨true, "System information retrieved",
      some (pyStr (.pdict
        [("system", .pstr env.platformSystem), ("release", .pstr env.platformRelease),
         ("version", .pstr env.platformVersion), ("machine", .pstr env.platformMachine)]))⟩
  else if endpoint_id = "git_repo" then
    match env.run ["git", "status", "--short"] 2 with
    | .ok result =>
        Except.ok ⟨true, "Git repository status",
          some (if result.returncode = 0 then result.stdout else "No changes")⟩
    | .error e =>
        Except.ok ⟨false, "Error getting git status: " ++ e.toMsg, none⟩
  else if pyStartsWith endpoint_id "sample_" then
    let params := request.getD []
    if endpoint_id = "sample_text_uppercase" then
      match pget params "input" (.pstr "") with
      | .pstr text => Except.ok ⟨true, "Text converted to uppercase", some (pyUpper text)⟩
      | _ => Except.error (.attributeError "object has no attribute upper")
    else if endpoint_id = "sample_text_lowercase" then
      match pget params "input" (.pstr "") with
      | .pstr text => Except.ok ⟨true, "Text converted to lowercase", some (pyLower text)⟩
      | _ => Except.error (.attributeError "object has no attribute lower")
    else if endpoint_id = "sample_text_reverse" then
      match pget params "input" (.pstr "") with
      | .pstr text =>
          Except.ok ⟨true, "Text reversed", some (String.mk text.toList.reverse)⟩
      | _ => Except.error (.typeError "object is not subscriptable")
    else if endpoint_id = "sample_text_word_count" then
      match pget params "input" (.pstr "") with
      | .pstr text =>
          Except.ok ⟨true, "Word count calculated", some (toString (pySplitWs text).length)⟩
      | _ => Except.error (.attributeError "object has no attribute split")
    else if endpoint_id = "sample_math_add" then do
      let a ← pyFloat (pget params "a" (.pint 0))
      let b ← pyFloat (pget params "b" (.pint 0))
      Except.ok ⟨true, "Numbers added", some (pyFloatStr (a + b))⟩
    else if endpoint_id = "sample_math_multiply" then do
      let a ← pyFloat (pget params "a" (.pint 1))
      let b ← pyFloat (pget params "b" (.pint 1))
      Except.ok ⟨true, "Numbers multiplied", some (pyFloatStr (a * b))⟩
    else if endpoint_id = "sample_math_power" then do
      let base ← pyFloat (pget params "base" (.pint 2))
      let exponent ← pyFloat (pget params "exponent" (.pint 2))
      let result ← pyPow base exponent
      Except.ok ⟨true, "Power calculated", some (pyFloatStr result)⟩
    else if endpoint_id = "sample_data_json_parse" then
      match pget params "json_string" (.pstr "\x7b\x7d") with
      | .pstr json_string =>
          match env.jsonLoads json_string with
          | .ok parsed =>
              Except.ok ⟨true, "JSON parsed successfully", some (pyStr parsed)⟩
          | .error e =>
              Except.ok ⟨false, "JSON parse error: " ++ e, none⟩
      | _ => Except.error (.typeError "the JSON object must be str, bytes or bytearray")
    else if endpoint_id = "sample_data_json_stringify" then
      Except.ok ⟨true, "Data stringified to JSON",
        some (pyDumps (pget params "data" (.pdict [])) 0)⟩
    else if endpoint_id = "sample_util_delay" then do
      let seconds ← pyFloat (pget params "seconds" (.pint 1))
      Except.ok ⟨true, "Delayed for " ++ pyFloatStr seconds ++ " seconds",
        some "Delay completed"⟩
    else if endpoint_id = "sample_util_timestamp" then
      Except.ok ⟨true, "Timestamp retrieved", some env.nowIso⟩
    else if endpoint_id = "sample_util_random" then do
      let min_val ← pyFloat (pget params "min" (.pint 0))
      let max_val ← pyFloat (pget params "max" (.pint 100))
      Except.ok ⟨true, "Random number generated",
        some (pyFloatStr (env.randomUniform min_val max_val))⟩
    else if endpoint_id = "sample_string_concat" then
      Except.ok ⟨true, "Strings concatenated",
        some (pyStr (pget params "str1" (.pstr "")) ++ pyStr (pget params "str2" (.pstr "")))⟩
    else if endpoint_id = "sample_string_replace" then
      Except.ok ⟨true, "Text replaced",
        some (pyReplace (pyStr (pget params "text" (.pstr "")))
          (pyStr (pget params "old" (.pstr ""))) (pyStr (pget params "new" (.pstr ""))))⟩
    else
      Except.ok ⟨false, "Unknown sample module: " ++ endpoint_id, none⟩
  else
    Except.ok ⟨true, "Endpoint " ++ endpoint.name ++ " executed",
      some ("Endpoint ID: " ++ endpoint_id)⟩

/-- `execute_endpoint`: registry lookup, the 404 raise on an unknown id, the
strategy dispatch, and the boundary `except Exception` that normalizes any
uncaught strategy failure into a failed `ExecuteResponse`.  The registry state
is threaded through to make its (non-)mutation explicit. -/
def execute_endpoint (env : Env) (reg : Registry) (endpoint_id : String)
    (request : Option (List (String × PyVal))) :
    Except HTTPException ExecuteResponse × Registry :=
  match EndpointRegistry.get reg endpoint_id with
  | none =>
      (.error ⟨404, "Endpoint \x27" ++ endpoint_id ++ "\x27 not found"⟩, reg)
  | some endpoint =>
      match executeStrategies env endpoint endpoint_id request with
      | .ok resp => (.ok resp, reg)
      | .error e => (.ok ⟨false, "Error executing endpoint: " ++ e.toMsg, none⟩, reg)

/-
Helper notions and lemmas about the registry model.
-/

/-- Number of entries stored under key `k` (a Python dict invariantly has at
most one). -/
def countKey (reg : Registry) (k : String) : Nat :=
  (reg.filter (fun p => p.1 == k)).length

/-- Whether some endpoint is registered under id `k`. -/
def hasId (reg : Registry) (k : String) : Bool :=
  (EndpointRegistry.get reg k).isSome

/-- The condition under which `discover_git_tools` registers `git_repo`:
`git` on the path and the work-tree query completing with exit code zero. -/
def gitRepoDetected (env : Env) : Bool :=
  match env.which "git" with
  | some _ =>
      match env.run ["git", "rev-parse", "--is-inside-work-tree"] 2 with
      | .ok r => r.returncode == 0
      | .error _ => false
  | none => false

/-- Characterisation of the id set a discovery pass contributes on host `env`
(derived from the probe structure, for the discovery theorems). -/
def discoveredAny (env : Env) (k : String) : Bool :=
  (SystemDiscovery.sampleModules env.nowIso).any (fun e => k == e.id)
  || (SystemDiscovery.common_tools.filter (fun t => (env.which t.1).isSome)).any
      (fun t => k == "tool_" ++ t.1)
  || (SystemDiscovery.python_tools.filter (fun t => (env.which t.1).isSome)).any
      (fun t => k == "python_" ++ t.1)
  || (SystemDiscovery.node_tools.filter (fun t => (env.which t.1).isSome)).any
      (fun t => k == "node_" ++ t.1)
  || (gitRepoDetected env && (k == "git_repo"))
  || (k == "system_info")

/-
Concrete host environments used to evaluate the theorems on explicit inputs.
-/

/-- A host with only `git` on the path, inside a work tree, whose status query
exits nonzero, and whose JSON decoder accepts exactly one document. -/
def envAll : Env where
  which := fun t => if t = "git" then some "/usr/bin/git" else none
  run := fun argv _t =>
    if argv = ["git", "--version"] then .ok ⟨0, "git version 2.39.2\n", ""⟩
    else if argv = ["git", "rev-parse", "--is-inside-work-tree"] then .ok ⟨0, "true\n", ""⟩
    else if argv = ["git", "status", "--short"] then .ok ⟨1, "", "fatal: bare repository"⟩
    else .error (.fileNotFoundError "No such file or directory")
  platformSystem := "Linux"
  platformRelease := "6.1.0"
  platformVersion := "#1 SMP"
  platformMachine := "x86_64"
  platformProcessor := "x86_64"
  jsonLoads := fun s =>
    if s = "\x7b\"a\":1\x7d" then .ok (.pdict [("a", .pint 1)])
    else .error "Expecting value: line 1 column 1 (char 0)"
  randomUniform := fun a _ => a
  nowIso := "2026-01-01T00:00:00"

/-- A host on which every external query raises (`TimeoutExpired`) and no
executable is on the path. -/
def envNull : Env where
  which := fun _ => none
  run := fun _ _ => .error (.timeoutExpired "Command timed out after 2 seconds")
  platformSystem := "Linux"
  platformRelease := "6.1.0"
  platformVersion := "#1 SMP"
  platformMachine := "x86_64"
  platformProcessor := "x86_64"
  jsonLoads := fun _ => .error "Expecting value: line 1 column 1 (char 0)"
  randomUniform := fun a _ => a
  nowIso := "2026-01-01T00:00:00"

/-- A host like `envAll` whose status query exits zero with empty output and
whose `git --version` output starts with a newline. -/
def envClean : Env where
  which := fun t => if t = "git" then some "/usr/bin/git" else none
  run := fun argv _t =>
    if argv = ["git", "--version"] then .ok ⟨0, "\nGit 2.0", ""⟩
    else if argv = ["git", "rev-parse", "--is-inside-work-tree"] then .ok ⟨0, "true\n", ""⟩
    else if argv = ["git", "status", "--short"] then .ok ⟨0, "", ""⟩
    else .error (.fileNotFoundError "No such file or directory")
  platformSystem := "Linux"
  platformRelease := "6.1.0"
  platformVersion := "#1 SMP"
  platformMachine := "x86_64"
  platformProcessor := "x86_64"
  jsonLoads := fun _ => .error "Expecting value: line 1 column 1 (char 0)"
  randomUniform := fun a _ => a
  nowIso := "2026-01-01T00:00:00"

/-- The registry produced by a discovery pass on `envAll`. -/
def regMain : Registry := SystemDiscovery.discover_all envAll []

/-- The registry produced by a discovery pass on `envClean`. -/
def regClean : Registry := SystemDiscovery.discover_all envClean []

namespace EndpointRegistry

theorem find?_map_replace (l : Registry) (e : EndpointMetadata) (k : String)
    (hk : k ≠ e.id) :
    ((l.map (fun p => if p.1 == e.id then (e.id, e) else p)).find? (fun p => p.1 == k))
      = l.find? (fun p => p.1 == k) := by
  induction l with
  | nil => rfl
  | cons p tl ih =>
      by_cases hpe : p.1 = e.id
      · have h1 : (p.1 == e.id) = true := by simp [hpe]
        have h2 : (e.id == k) = false := by simp [Ne.symm hk]
        have h3 : (p.1 == k) = false := by simp [hpe, Ne.symm hk]
        rw [List.map_cons, if_pos h1]
        simp only [List.find?, h2, h3]
        exact ih
      · have h1 : (p.1 == e.id) = false := by simp [hpe]
        rw [List.map_cons, if_neg (by simp [hpe])]
        by_cases hpk : p.1 = k
        · have h2 : (p.1 == k) = true := by simp [hpk]
          simp only [List.find?, h2]
        · have h2 : (p.1 == k) = false := by simp [hpk]
          simp only [List.find?, h2]
          exact ih

theorem get_register_self (reg : Registry) (e : EndpointMetadata) :
    get (register reg e) e.id = some e := by
  unfold register get
  by_cases hany : reg.any (fun p => p.1 == e.id) = true
  · rw [if_pos hany]
    induction reg with
    | nil => simp at hany
    | cons p tl ih =>
        by_cases hpe : p.1 = e.id
        · have h1 : (p.1 == e.id) = true := by simp [hpe]
          simp [List.find?, h1]
        · have h1 : (p.1 == e.id) = false := by simp [hpe]
          have : tl.any (fun p => p.1 == e.id) = true := by
            simpa [List.any_cons, h1] using hany
          simpa [List.find?, h1] using ih this
  · rw [if_neg hany]
    have hnone : reg.find? (fun p => p.1 == e.id) = none := by
      rw [List.find?_eq_none]
      intro p hp
      intro hcon
      exact hany (List.any_eq_true.mpr ⟨p, hp, hcon⟩)
    simp [List.find?_append, hnone, List.find?]

theorem get_register_ne (reg : Registry) (e : EndpointMetadata) (k : String)
    (hk : k ≠ e.id) :
    get (register reg e) k = get reg k := by
  unfold register get
  by_cases hany : reg.any (fun p => p.1 == e.id) = true
  · rw [if_pos hany, find?_map_replace reg e k hk]
  · rw [if_neg hany]
    cases hfind : reg.find? (fun p => p.1 == k) with
    | some p => simp [List.find?_append, hfind]
    | none =>
        have h2 : (e.id == k) = false := by simp [Ne.symm hk]
        simp [List.find?_append, hfind, List.find?, h2]

theorem hasId_register (reg : Registry) (e : EndpointMetadata) (k : String) :
    hasId (register reg e) k = (hasId reg k || k == e.id) := by
  by_cases hk : k = e.id
  · subst hk
    simp [hasId, get_register_self]
  · simp [hasId, get_register_ne reg e k hk, hk]

end EndpointRegistry

namespace EndpointRegistry

theorem countKey_map_replace (l : Registry) (e : EndpointMetadata) :
    countKey (l.map (fun p => if p.1 == e.id then (e.id, e) else p)) e.id
      = countKey l e.id := by
  induction l with
  | nil => rfl
  | cons p tl ih =>
      unfold countKey at *
      by_cases hpe : p.1 = e.id
      · have h1 : (p.1 == e.id) = true := by simp [hpe]
        have h2 : (e.id == e.id) = true := by simp
        rw [List.map_cons, if_pos h1]
        simp only [List.filter, h1, h2, List.length_cons]
        rw [ih]
      · have h1 : (p.1 == e.id) = false := by simp [hpe]
        rw [List.map_cons, if_neg (by simp [hpe])]
        simp only [List.filter, h1]
        exact ih

theorem countKey_eq_zero_of_not_mem (l : Registry) (k : String)
    (h : l.find? (fun p => p.1 == k) = none) : countKey l k = 0 := by
  unfold countKey
  rw [List.find?_eq_none] at h
  have : l.filter (fun p => p.1 == k) = [] := by
    rw [List.filter_eq_nil_iff]
    intro p hp
    exact h p hp
  rw [this]
  rfl

theorem countKey_pos_of_any (l : Registry) (k : String)
    (h : l.any (fun p => p.1 == k) = true) : 1 ≤ countKey l k := by
  unfold countKey
  rcases List.any_eq_true.mp h with ⟨p, hp, hpk⟩
  have : p ∈ l.filter (fun p => p.1 == k) := List.mem_filter.mpr ⟨hp, hpk⟩
  calc 1 ≤ (l.filter (fun p => p.1 == k)).length :=
        List.length_pos.mpr (List.ne_nil_of_mem this)
    _ = _ := rfl

theorem nodup_countKey_le_one (l : Registry) (h : (l.map Prod.fst).Nodup)
    (k : String) : countKey l k ≤ 1 := by
  induction l with
  | nil => exact Nat.zero_le 1
  | cons p tl ih =>
      rw [List.map_cons, List.nodup_cons] at h
      unfold countKey
      by_cases hpk : p.1 = k
      · have h1 : (p.1 == k) = true := by simp [hpk]
        simp only [List.filter, h1, List.length_cons]
        have hz : countKey tl k = 0 := by
          apply countKey_eq_zero_of_not_mem
          rw [List.find?_eq_none]
          intro q hq hcon
          apply h.1
          rw [hpk, ← (by simpa using hcon : q.1 = k)]
          exact List.mem_map.mpr ⟨q, hq, rfl⟩
        unfold countKey at hz
        omega
      · have h1 : (p.1 == k) = false := by simp [hpk]
        simp only [List.filter, h1]
        exact ih h.2

theorem countKey_register_self (reg : Registry) (e : EndpointMetadata)
    (h : countKey reg e.id ≤ 1) : countKey (register reg e) e.id = 1 := by
  unfold register
  by_cases hany : reg.any (fun p => p.1 == e.id) = true
  · rw [if_pos hany, countKey_map_replace]
    have := countKey_pos_of_any reg e.id hany
    omega
  · rw [if_neg hany]
    have hz : countKey reg e.id = 0 := by
      apply countKey_eq_zero_of_not_mem
      rw [List.find?_eq_none]
      intro p hp hcon
      exact hany (List.any_eq_true.mpr ⟨p, hp, hcon⟩)
    unfold countKey at *
    have h2 : (e.id == e.id) = true := by simp
    rw [List.filter_append]
    simp only [List.filter, h2]
    rw [List.length_append, hz]
    rfl

theorem find?_eraseP_ne (l : Registry) (id k : String) (hk : k ≠ id) :
    (l.eraseP (fun p => p.1 == id)).find? (fun p => p.1 == k)
      = l.find? (fun p => p.1 == k) := by
  induction l with
  | nil => rfl
  | cons p tl ih =>
      by_cases hpi : p.1 = id
      · have h1 : (p.1 == id) = true := by simp [hpi]
        have h2 : (p.1 == k) = false := by simp [hpi, Ne.symm hk]
        simp only [List.eraseP_cons, h1, cond_true]
        simp only [List.find?, h2]
      · have h1 : (p.1 == id) = false := by simp [hpi]
        simp only [List.eraseP_cons, h1, cond_false]
        by_cases hpk : p.1 = k
        · have h2 : (p.1 == k) = true := by simp [hpk]
          simp only [List.find?, h2]
        · have h2 : (p.1 == k) = false := by simp [hpk]
          simp only [List.find?, h2]
          exact ih

theorem get_unregister_ne (reg : Registry) (id k : String) (hk : k ≠ id) :
    get (unregister reg id) k = get reg k := by
  unfold unregister get
  by_cases hany : reg.any (fun p => p.1 == id) = true
  · rw [if_pos hany, find?_eraseP_ne reg id k hk]
  · rw [if_neg hany]

theorem unregister_absent (reg : Registry) (id : String)
    (h : get reg id = none) : unregister reg id = reg := by
  unfold unregister
  have hany : ¬ reg.any (fun p => p.1 == id) = true := by
    intro hcon
    rcases List.any_eq_true.mp hcon with ⟨p, hp, hpk⟩
    have : reg.find? (fun p => p.1 == id) = none := by
      unfold get at h
      cases hfind : reg.find? (fun p => p.1 == id) with
      | none => rfl
      | some q => rw [hfind] at h; simp at h
    rw [List.find?_eq_none] at this
    exact this p hp hpk
  rw [if_neg hany]

end EndpointRegistry

/-
Characterisation of the discovery probes' effect on the registered id set.
-/

theorem hasId_foldl_register (l : List EndpointMetadata) (reg : Registry) (k : String) :
    hasId (l.foldl EndpointRegistry.register reg) k
      = (hasId reg k || l.any (fun e => k == e.id)) := by
  induction l generalizing reg with
  | nil => simp
  | cons e tl ih =>
      rw [List.foldl_cons, ih, EndpointRegistry.hasId_register]
      simp [Bool.or_assoc]

theorem hasId_foldl_which (env : Env) (F : String × String × String → EndpointMetadata)
    (l : List (String × String × String)) (reg : Registry) (k : String) :
    hasId (l.foldl (fun r t =>
      match env.which t.1 with
      | some _ => EndpointRegistry.register r (F t)
      | none => r) reg) k
      = (hasId reg k ||
          (l.filter (fun t => (env.which t.1).isSome)).any (fun t => k == (F t).id)) := by
  induction l generalizing reg with
  | nil => simp
  | cons t tl ih =>
      rw [List.foldl_cons]
      cases hw : env.which t.1 with
      | none =>
          simp only [hw]
          rw [ih]
          simp [List.filter_cons, hw]
      | some v =>
          simp only [hw]
          rw [ih, EndpointRegistry.hasId_register]
          simp [List.filter_cons, hw, Bool.or_assoc]

theorem hasId_discover_sample_modules (env : Env) (reg : Registry) (k : String) :
    hasId (SystemDiscovery.discover_sample_modules env reg) k
      = (hasId reg k ||
          (SystemDiscovery.sampleModules env.nowIso).any (fun e => k == e.id)) := by
  unfold SystemDiscovery.discover_sample_modules
  exact hasId_foldl_register _ reg k

theorem hasId_discover_common_tools (env : Env) (reg : Registry) (k : String) :
    hasId (SystemDiscovery.discover_common_tools env reg) k
      = (hasId reg k ||
          (SystemDiscovery.common_tools.filter (fun t => (env.which t.1).isSome)).any
            (fun t => k == "tool_" ++ t.1)) := by
  unfold SystemDiscovery.discover_common_tools
  exact hasId_foldl_which env
    (fun t => ⟨"tool_" ++ t.1, t.2.1, t.2.2, "Tools",
      [("command", .pstr t.1), ("version", .pstr (SystemDiscovery._get_version env t.1))],
      env.nowIso⟩)
    SystemDiscovery.common_tools reg k

theorem hasId_discover_python_tools (env : Env) (reg : Registry) (k : String) :
    hasId (SystemDiscovery.discover_python_tools env reg) k
      = (hasId reg k ||
          (SystemDiscovery.python_tools.filter (fun t => (env.which t.1).isSome)).any
            (fun t => k == "python_" ++ t.1)) := by
  unfold SystemDiscovery.discover_python_tools
  exact hasId_foldl_which env
    (fun t => ⟨"python_" ++ t.1, t.2.1, t.2.2, "Python Tools",
      [("command", .pstr t.1)], env.nowIso⟩)
    SystemDiscovery.python_tools reg k

theorem hasId_discover_node_tools (env : Env) (reg : Registry) (k : String) :
    hasId (SystemDiscovery.discover_node_tools env reg) k
      = (hasId reg k ||
          (SystemDiscovery.node_tools.filter (fun t => (env.which t.1).isSome)).any
            (fun t => k == "node_" ++ t.1)) := by
  unfold SystemDiscovery.discover_node_tools
  exact hasId_foldl_which env
    (fun t => ⟨"node_" ++ t.1, t.2.1, t.2.2, "Node.js Tools",
      [("command", .pstr t.1)], env.nowIso⟩)
    SystemDiscovery.node_tools reg k

theorem hasId_discover_git_tools (env : Env) (reg : Registry) (k : String) :
    hasId (SystemDiscovery.discover_git_tools env reg) k
      = (hasId reg k || (gitRepoDetected env && (k == "git_repo"))) := by
  unfold SystemDiscovery.discover_git_tools gitRepoDetected
  cases hw : env.which "git" with
  | none => simp
  | some v =>
      cases hr : env.run ["git", "rev-parse", "--is-inside-work-tree"] 2 with
      | error e => simp
      | ok r =>
          by_cases hrc : r.returncode = 0
          · simp only [hrc, if_pos, if_true, EndpointRegistry.hasId_register]
            simp
          · have hb : (r.returncode == 0) = false := by simp [hrc]
            simp [hrc, hb]

theorem hasId_discover_system_info (env : Env) (reg : Registry) (k : String) :
    hasId (SystemDiscovery.discover_system_info env reg) k
      = (hasId reg k || (k == "system_info")) := by
  unfold SystemDiscovery.discover_system_info
  exact EndpointRegistry.hasId_register reg _ k

theorem hasId_discover_all (env : Env) (reg : Registry) (k : String) :
    hasId (SystemDiscovery.discover_all env reg) k
      = (hasId reg k || discoveredAny env k) := by
  unfold SystemDiscovery.discover_all discoveredAny
  rw [hasId_discover_system_info, hasId_discover_git_tools, hasId_discover_node_tools,
    hasId_discover_python_tools, hasId_discover_common_tools,
    hasId_discover_sample_modules]
  simp [Bool.or_assoc]

/-
The claims.
-/

/-- C1: for every host state — including ones on which every bounded external
query raises — `discover_all` runs every probe to completion and returns
normally, and every probe's registrations are in the resulting registry
whatever any earlier probe's external calls did: the sample probe's 14
registrations, each present common tool's, each present Python tool's, each
present Node tool's, the contextual `git_repo` registration whenever its
detection condition holds, and the final system-descriptor registration
(every probe's fallible call is contained inside that probe, so no per-probe
failure propagates to the caller of `discover_all`). -/
theorem C1_probe_isolation (env : Env) (reg : Registry) :
    (∀ i, i ∈ (SystemDiscovery.sampleModules env.nowIso).map EndpointMetadata.id →
      hasId (SystemDiscovery.discover_all env reg) i = true) ∧
    (∀ t, t ∈ SystemDiscovery.common_tools → (env.which t.1).isSome = true →
      hasId (SystemDiscovery.discover_all env reg) ("tool_" ++ t.1) = true) ∧
    (∀ t, t ∈ SystemDiscovery.python_tools → (env.which t.1).isSome = true →
      hasId (SystemDiscovery.discover_all env reg) ("python_" ++ t.1) = true) ∧
    (∀ t, t ∈ SystemDiscovery.node_tools → (env.which t.1).isSome = true →
      hasId (SystemDiscovery.discover_all env reg) ("node_" ++ t.1) = true) ∧
    (gitRepoDetected env = true →
      hasId (SystemDiscovery.discover_all env reg) "git_repo" = true) ∧
    hasId (SystemDiscovery.discover_all env reg) "system_info" = true := by
  refine ⟨?_, ?_, ?_, ?_, ?_, ?_⟩
  · intro i hi
    rcases List.mem_map.mp hi with ⟨e, he, rfl⟩
    rw [hasId_discover_all]
    have hany : (SystemDiscovery.sampleModules env.nowIso).any (fun x => e.id == x.id)
        = true :=
      List.any_eq_true.mpr ⟨e, he, by simp⟩
    simp [discoveredAny, hany]
  · intro t ht hw
    rw [hasId_discover_all]
    have hany : (SystemDiscovery.common_tools.filter (fun x => (env.which x.1).isSome)).any
        (fun x => ("tool_" ++ t.1) == "tool_" ++ x.1) = true :=
      List.any_eq_true.mpr ⟨t, List.mem_filter.mpr ⟨ht, hw⟩, by simp⟩
    simp [discoveredAny, hany]
  · intro t ht hw
    rw [hasId_discover_all]
    have hany : (SystemDiscovery.python_tools.filter (fun x => (env.which x.1).isSome)).any
        (fun x => ("python_" ++ t.1) == "python_" ++ x.1) = true :=
      List.any_eq_true.mpr ⟨t, List.mem_filter.mpr ⟨ht, hw⟩, by simp⟩
    simp [discoveredAny, hany]
  · intro t ht hw
    rw [hasId_discover_all]
    have hany : (SystemDiscovery.node_tools.filter (fun x => (env.which x.1).isSome)).any
        (fun x => ("node_" ++ t.1) == "node_" ++ x.1) = true :=
      List.any_eq_true.mpr ⟨t, List.mem_filter.mpr ⟨ht, hw⟩, by simp⟩
    simp [discoveredAny, hany]
  · intro hgit
    rw [hasId_discover_all]
    simp [discoveredAny, hgit]
  · rw [hasId_discover_all]
    simp [discoveredAny]

/-- C1 witness: on the host whose every external query raises `TimeoutExpired`,
the sample registrations and the final probe's registration are still present;
and on `envAll`, where the work-tree detection holds, the git probe's
registration is present even though the later status strategy and the earlier
version queries see failures. -/
theorem C1_probe_isolation_witness :
    hasId (SystemDiscovery.discover_all envNull []) "sample_math_add" = true ∧
    hasId (SystemDiscovery.discover_all envNull []) "system_info" = true ∧
    hasId (SystemDiscovery.discover_all envAll []) "git_repo" = true :=
  ⟨(C1_probe_isolation envNull []).1 "sample_math_add" (by decide),
   (C1_probe_isolation envNull []).2.2.2.2.2,
   (C1_probe_isolation envAll []).2.2.2.2.1 (by rfl)⟩

/-- C7: for a fixed host state, running `discover_all` twice leaves the
same endpoint-id set as running it once. -/
theorem C7_discovery_idempotent (env : Env) (reg : Registry) (k : String) :
    hasId (SystemDiscovery.discover_all env (SystemDiscovery.discover_all env reg)) k
      = hasId (SystemDiscovery.discover_all env reg) k := by
  simp only [hasId_discover_all]
  cases hasId reg k <;> cases discoveredAny env k <;> rfl

/-- C4: executing an id absent from the registry yields the distinct 404
NotFound boundary error naming the id — not a generic failed execution
result — and leaves the registry state unchanged. -/
theorem C4_not_found_distinct (env : Env) (reg : Registry) (endpoint_id : String)
    (request : Option (List (String × PyVal)))
    (h : EndpointRegistry.get reg endpoint_id = none) :
    execute_endpoint env reg endpoint_id request =
      (.error ⟨404, "Endpoint \x27" ++ endpoint_id ++ "\x27 not found"⟩, reg) := by
  unfold execute_endpoint
  rw [h]

/-- C4 witness: `execute("nonexistent_id", ∅)` on the discovered registry. -/
theorem C4_not_found_distinct_witness :
    execute_endpoint envAll regMain "nonexistent_id" (some []) =
      (.error ⟨404, "Endpoint \x27nonexistent_id\x27 not found"⟩, regMain) :=
  C4_not_found_distinct envAll regMain "nonexistent_id" (some []) (by rfl)

/-- C5: on any dict-invariant registry state (pairwise-distinct keys),
registering `e1` then `e2` with `e1.id = e2.id` leaves exactly one entry under
that id, and `get` returns `e2` in full — no field-wise merge with `e1`. -/
theorem C5_register_replaces (reg : Registry) (e1 e2 : EndpointMetadata)
    (hnd : (reg.map Prod.fst).Nodup) (hid : e1.id = e2.id) :
    EndpointRegistry.get
        (EndpointRegistry.register (EndpointRegistry.register reg e1) e2) e2.id
      = some e2 ∧
    countKey (EndpointRegistry.register (EndpointRegistry.register reg e1) e2) e2.id
      = 1 := by
  constructor
  · exact EndpointRegistry.get_register_self _ e2
  · apply EndpointRegistry.countKey_register_self
    rw [← hid,
      EndpointRegistry.countKey_register_self reg e1
        (EndpointRegistry.nodup_countKey_le_one reg hnd e1.id)]

/-- C5 witness: two concrete registrations under the id `"x"`. -/
theorem C5_register_replaces_witness :
    EndpointRegistry.get
        (EndpointRegistry.register (EndpointRegistry.register []
          ⟨"x", "A", "first", "c1", [], "t1"⟩)
          ⟨"x", "B", "second", "c2", [("p", .pint 1)], "t2"⟩) "x"
      = some ⟨"x", "B", "second", "c2", [("p", .pint 1)], "t2"⟩ ∧
    countKey (EndpointRegistry.register (EndpointRegistry.register []
          ⟨"x", "A", "first", "c1", [], "t1"⟩)
          ⟨"x", "B", "second", "c2", [("p", .pint 1)], "t2"⟩) "x" = 1 :=
  C5_register_replaces [] ⟨"x", "A", "first", "c1", [], "t1"⟩
    ⟨"x", "B", "second", "c2", [("p", .pint 1)], "t2"⟩ (by simp) rfl

/-- C10: `unregister id` changes no entry stored under a different id; on an
absent id it is a no-op returning the state unchanged (and raises nothing, being
total); and `register e` likewise leaves every differently-keyed entry unchanged. -/
theorem C10_frame_conditions (reg : Registry) (id : String) (e : EndpointMetadata) :
    (∀ k, k ≠ id →
      EndpointRegistry.get (EndpointRegistry.unregister reg id) k
        = EndpointRegistry.get reg k) ∧
    (EndpointRegistry.get reg id = none → EndpointRegistry.unregister reg id = reg) ∧
    (∀ k, k ≠ e.id →
      EndpointRegistry.get (EndpointRegistry.register reg e) k
        = EndpointRegistry.get reg k) :=
  ⟨fun k hk => EndpointRegistry.get_unregister_ne reg id k hk,
   EndpointRegistry.unregister_absent reg id,
   fun k hk => EndpointRegistry.get_register_ne reg e k hk⟩

/-- C10 witness: a concrete one-entry registry, an absent id, and a fresh
registration. -/
theorem C10_frame_conditions_witness :
    EndpointRegistry.get
        (EndpointRegistry.unregister [("a", ⟨"a", "N", "d", "c", [], "t"⟩)] "b") "a"
      = EndpointRegistry.get [("a", ⟨"a", "N", "d", "c", [], "t"⟩)] "a" ∧
    EndpointRegistry.unregister [("a", ⟨"a", "N", "d", "c", [], "t"⟩)] "b"
      = [("a", ⟨"a", "N", "d", "c", [], "t"⟩)] ∧
    EndpointRegistry.get
        (EndpointRegistry.register [("a", ⟨"a", "N", "d", "c", [], "t"⟩)]
          ⟨"z", "M", "d2", "c2", [], "t2"⟩) "a"
      = EndpointRegistry.get [("a", ⟨"a", "N", "d", "c", [], "t"⟩)] "a" :=
  ⟨(C10_frame_conditions [("a", ⟨"a", "N", "d", "c", [], "t"⟩)] "b"
      ⟨"z", "M", "d2", "c2", [], "t2"⟩).1 "a" (by decide),
   (C10_frame_conditions [("a", ⟨"a", "N", "d", "c", [], "t"⟩)] "b"
      ⟨"z", "M", "d2", "c2", [], "t2"⟩).2.1 (by rfl),
   (C10_frame_conditions [("a", ⟨"a", "N", "d", "c", [], "t"⟩)] "b"
      ⟨"z", "M", "d2", "c2", [], "t2"⟩).2.2 "a" (by decide)⟩

/-- C2 counterexample: the claim fails on the code in both directions.  On
`envAll`, the status query completes with exit code 1, yet the endpoint reports
success `true` carrying exactly `"No changes"`; on `envClean`, the query exits
zero with empty status text, yet the reported output is the empty string, not
`"No changes"`. -/
theorem C2_counterexample :
    envAll.run ["git", "status", "--short"] 2 = .ok ⟨1, "", "fatal: bare repository"⟩ ∧
    (execute_endpoint envAll regMain "git_repo" none).1 =
      .ok ⟨true, "Git repository status", some "No changes"⟩ ∧
    envClean.run ["git", "status", "--short"] 2 = .ok ⟨0, "", ""⟩ ∧
    (execute_endpoint envClean regClean "git_repo" none).1 =
      .ok ⟨true, "Git repository status", some ""⟩ ∧
    ("" : String) ≠ "No changes" :=
  ⟨rfl, rfl, rfl, rfl, by decide⟩

/-- C2 amended: whenever the status query completes within its 2-second bound
(no exception), the `git_repo` endpoint reports success `true` with message
`"Git repository status"`; the output is the raw status text — even when that
text is empty — if the exit code is zero, and the literal `"No changes"` if
the exit code is nonzero. -/
theorem C2_git_status_output (env : Env) (reg : Registry)
    (request : Option (List (String × PyVal))) (ep : EndpointMetadata) (r : RunResult)
    (hget : EndpointRegistry.get reg "git_repo" = some ep)
    (hrun : env.run ["git", "status", "--short"] 2 = .ok r) :
    execute_endpoint env reg "git_repo" request =
      (.ok ⟨true, "Git repository status",
        some (if r.returncode = 0 then r.stdout else "No changes")⟩, reg) := by
  have hstrat : executeStrategies env ep "git_repo" request =
      .ok ⟨true, "Git repository status",
        some (if r.returncode = 0 then r.stdout else "No changes")⟩ := by
    unfold executeStrategies
    rw [hrun]
    rfl
  simp only [execute_endpoint, hget, hstrat]

/-- C2 amended witness: the completed nonzero-exit query on `envAll`. -/
theorem C2_git_status_output_witness :
    execute_endpoint envAll regMain "git_repo" none =
      (.ok ⟨true, "Git repository status", some "No changes"⟩, regMain) :=
  C2_git_status_output envAll regMain none _ ⟨1, "", "fatal: bare repository"⟩
    (by rfl) (by rfl)

/-- C8 counterexample: with a zero-exit version query whose captured stdout is
`"\nGit 2.0"`, the recorded version is `"Git 2.0"` while the first line of the
captured standard output is the empty string — the two differ, refuting the
claim as stated. -/
theorem C8_counterexample :
    envClean.run ["git", "--version"] 2 = .ok ⟨0, "\nGit 2.0", ""⟩ ∧
    SystemDiscovery._get_version envClean "git" = "Git 2.0" ∧
    firstLine "\nGit 2.0" = "" ∧
    ("Git 2.0" : String) ≠ "" :=
  ⟨rfl, rfl, rfl, by decide⟩

/-- C8 amended: the version query runs `<tool> --version` under the 2-second
bound; when it exits zero the recorded version is the first line of the
captured standard output after stripping leading and trailing whitespace, and
on nonzero exit or on an exception (including timeout) it is exactly
`"unknown"`. -/
theorem C8_version_recording (env : Env) (command : String) :
    (∀ r, env.run [command, "--version"] 2 = .ok r →
      SystemDiscovery._get_version env command =
        if r.returncode = 0 then firstLine (pyStrip r.stdout) else "unknown") ∧
    (∀ e, env.run [command, "--version"] 2 = .error e →
      SystemDiscovery._get_version env command = "unknown") := by
  constructor
  · intro r hr
    unfold SystemDiscovery._get_version
    rw [hr]
  · intro e he
    unfold SystemDiscovery._get_version
    rw [he]

/-- C8 amended witness: a successful query on `envAll` and a raising query on
`envNull`. -/
theorem C8_version_recording_witness :
    SystemDiscovery._get_version envAll "git" = "git version 2.39.2" ∧
    SystemDiscovery._get_version envNull "git" = "unknown" :=
  ⟨(C8_version_recording envAll "git").1 ⟨0, "git version 2.39.2\n", ""⟩ (by rfl),
   (C8_version_recording envNull "git").2
     (.timeoutExpired "Command timed out after 2 seconds") (by rfl)⟩

/-- C3: for every registered endpoint id and parameter bag, the dispatcher
returns a well-formed execution result — never a transport-level fault — and
whenever the selected strategy raises, the boundary handler converts the
exception into `success = false` with a message carrying the failure's
description. -/
theorem C3_boundary_normalization (env : Env) (reg : Registry) (endpoint_id : String)
    (request : Option (List (String × PyVal))) (ep : EndpointMetadata)
    (h : EndpointRegistry.get reg endpoint_id = some ep) :
    (∃ resp, execute_endpoint env reg endpoint_id request = (.ok resp, reg)) ∧
    (∀ e, executeStrategies env ep endpoint_id request = .error e →
      execute_endpoint env reg endpoint_id request =
        (.ok ⟨false, "Error executing endpoint: " ++ e.toMsg, none⟩, reg)) := by
  constructor
  · cases hs : executeStrategies env ep endpoint_id request with
    | ok resp =>
        exact ⟨resp, by simp only [execute_endpoint, h, hs]⟩
    | error e =>
        exact ⟨⟨false, "Error executing endpoint: " ++ e.toMsg, none⟩,
          by simp only [execute_endpoint, h, hs]⟩
  · intro e he
    simp only [execute_endpoint, h, he]

/-- C3 witness: a strategy-internal `ValueError` (a non-numeric string fed to
the add operation) is converted at the boundary. -/
theorem C3_boundary_normalization_witness :
    execute_endpoint envAll regMain "sample_math_add" (some [("a", .pstr "x")]) =
      (.ok ⟨false,
        "Error executing endpoint: could not convert string to float: \x27x\x27",
        none⟩, regMain) :=
  (C3_boundary_normalization envAll regMain "sample_math_add"
      (some [("a", .pstr "x")]) _ (by rfl)).2
    (.valueError "could not convert string to float: \x27x\x27") (by rfl)

/-- C9: for every input string bound to `json_string`, the parse strategy
succeeds with the decoded value rendered as text exactly when the decoder
accepts the input, and fails with a message identifying a parse error — not an
uncaught exception, not a generic failure — exactly when it rejects it. -/
theorem C9_json_parse_classification (env : Env) (reg : Registry)
    (ep : EndpointMetadata) (params : List (String × PyVal)) (s : String)
    (hget : EndpointRegistry.get reg "sample_data_json_parse" = some ep)
    (hs : pget params "json_string" (.pstr "\x7b\x7d") = .pstr s) :
    (∀ v, env.jsonLoads s = .ok v →
      execute_endpoint env reg "sample_data_json_parse" (some params) =
        (.ok ⟨true, "JSON parsed successfully", some (pyStr v)⟩, reg)) ∧
    (∀ msg, env.jsonLoads s = .error msg →
      execute_endpoint env reg "sample_data_json_parse" (some params) =
        (.ok ⟨false, "JSON parse error: " ++ msg, none⟩, reg)) ∧
    (∀ resp, execute_endpoint env reg "sample_data_json_parse" (some params)
        = (.ok resp, reg) →
      (resp.success = true ↔ ∃ v, env.jsonLoads s = .ok v)) := by
  have hstrat : executeStrategies env ep "sample_data_json_parse" (some params) =
      (match env.jsonLoads s with
       | .ok parsed => .ok ⟨true, "JSON parsed successfully", some (pyStr parsed)⟩
       | .error e => .ok ⟨false, "JSON parse error: " ++ e, none⟩) := by
    unfold executeStrategies
    dsimp only [Option.getD]
    rw [hs]
    rfl
  refine ⟨?_, ?_, ?_⟩
  · intro v hv
    simp only [execute_endpoint, hget, hstrat, hv]
  · intro msg hm
    simp only [execute_endpoint, hget, hstrat, hm]
  · intro resp hresp
    cases hj : env.jsonLoads s with
    | ok v =>
        have h1 : execute_endpoint env reg "sample_data_json_parse" (some params) =
            (.ok ⟨true, "JSON parsed successfully", some (pyStr v)⟩, reg) := by
          simp only [execute_endpoint, hget, hstrat, hj]
        have h2 : resp = ⟨true, "JSON parsed successfully", some (pyStr v)⟩ := by
          have := h1.symm.trans hresp
          simpa using this.symm
        subst h2
        exact ⟨fun _ => ⟨v, rfl⟩, fun _ => rfl⟩
    | error m =>
        have h1 : execute_endpoint env reg "sample_data_json_parse" (some params) =
            (.ok ⟨false, "JSON parse error: " ++ m, none⟩, reg) := by
          simp only [execute_endpoint, hget, hstrat, hj]
        have h2 : resp = ⟨false, "JSON parse error: " ++ m, none⟩ := by
          have := h1.symm.trans hresp
          simpa using this.symm
        subst h2
        simp

/-- C9 witness: the decoder accepting one concrete document and rejecting
another, through the full dispatch. -/
theorem C9_json_parse_classification_witness :
    execute_endpoint envAll regMain "sample_data_json_parse"
        (some [("json_string", .pstr "\x7b\"a\":1\x7d")]) =
      (.ok ⟨true, "JSON parsed successfully", some "\x7b\x27a\x27: 1\x7d"⟩, regMain) ∧
    execute_endpoint envAll regMain "sample_data_json_parse"
        (some [("json_string", .pstr "\x7bbad")]) =
      (.ok ⟨false,
        "JSON parse error: Expecting value: line 1 column 1 (char 0)", none⟩, regMain) :=
  ⟨(C9_json_parse_classification envAll regMain _ [("json_string", .pstr "\x7b\"a\":1\x7d")]
      "\x7b\"a\":1\x7d" (by rfl) (by rfl)).1 (.pdict [("a", .pint 1)]) (by rfl),
   (C9_json_parse_classification envAll regMain _ [("json_string", .pstr "\x7bbad")]
      "\x7bbad" (by rfl) (by rfl)).2.1 "Expecting value: line 1 column 1 (char 0)" (by rfl)⟩

section

attribute [local semireducible] Rat.add Rat.mul Rat.inv Rat.sub

/-- C6: the documented sample behaviours — `uppercase("abc") = "ABC"`,
`add(2,3) = 5` (a float, printed `"5.0"`), `replaceAll("aaa","a","b") = "bbb"`,
`wordCount("a b  c") = 3` — and the neutral defaults used whenever a math
argument is absent from the bag: `0` for each argument of add, `1` for each
argument of multiply, and `2` for both base and exponent of power (the casts
`((0 : Int) : ℚ)` etc. are the parsed defaults). -/
theorem C6_sample_operations (env : Env) (reg : Registry) :
    (∀ ep, EndpointRegistry.get reg "sample_text_uppercase" = some ep →
      execute_endpoint env reg "sample_text_uppercase" (some [("input", .pstr "abc")]) =
        (.ok ⟨true, "Text converted to uppercase", some "ABC"⟩, reg)) ∧
    (∀ ep, EndpointRegistry.get reg "sample_math_add" = some ep →
      execute_endpoint env reg "sample_math_add"
          (some [("a", .pint 2), ("b", .pint 3)]) =
        (.ok ⟨true, "Numbers added", some "5.0"⟩, reg)) ∧
    (∀ ep, EndpointRegistry.get reg "sample_string_replace" = some ep →
      execute_endpoint env reg "sample_string_replace"
          (some [("text", .pstr "aaa"), ("old", .pstr "a"), ("new", .pstr "b")]) =
        (.ok ⟨true, "Text replaced", some "bbb"⟩, reg)) ∧
    (∀ ep, EndpointRegistry.get reg "sample_text_word_count" = some ep →
      execute_endpoint env reg "sample_text_word_count"
          (some [("input", .pstr "a b  c")]) =
        (.ok ⟨true, "Word count calculated", some "3"⟩, reg)) ∧
    (∀ ep params q, EndpointRegistry.get reg "sample_math_add" = some ep →
      params.find? (fun p => p.1 == "a") = none →
      pget params "b" (.pint 0) = .pfloat q →
      execute_endpoint env reg "sample_math_add" (some params) =
        (.ok ⟨true, "Numbers added", some (pyFloatStr (((0 : Int) : ℚ) + q))⟩, reg)) ∧
    (∀ ep params q, EndpointRegistry.get reg "sample_math_add" = some ep →
      params.find? (fun p => p.1 == "b") = none →
      pget params "a" (.pint 0) = .pfloat q →
      execute_endpoint env reg "sample_math_add" (some params) =
        (.ok ⟨true, "Numbers added", some (pyFloatStr (q + ((0 : Int) : ℚ)))⟩, reg)) ∧
    (∀ ep params q, EndpointRegistry.get reg "sample_math_multiply" = some ep →
      params.find? (fun p => p.1 == "a") = none →
      pget params "b" (.pint 1) = .pfloat q →
      execute_endpoint env reg "sample_math_multiply" (some params) =
        (.ok ⟨true, "Numbers multiplied", some (pyFloatStr (((1 : Int) : ℚ) * q))⟩, reg)) ∧
    (∀ ep params q, EndpointRegistry.get reg "sample_math_multiply" = some ep →
      params.find? (fun p => p.1 == "b") = none →
      pget params "a" (.pint 1) = .pfloat q →
      execute_endpoint env reg "sample_math_multiply" (some params) =
        (.ok ⟨true, "Numbers multiplied", some (pyFloatStr (q * ((1 : Int) : ℚ)))⟩, reg)) ∧
    (∀ ep params, EndpointRegistry.get reg "sample_math_power" = some ep →
      params.find? (fun p => p.1 == "base") = none →
      params.find? (fun p => p.1 == "exponent") = none →
      execute_endpoint env reg "sample_math_power" (some params) =
        (.ok ⟨true, "Power calculated", some "4.0"⟩, reg)) ∧
    (∀ ep params, EndpointRegistry.get reg "sample_math_power" = some ep →
      params.find? (fun p => p.1 == "base") = none →
      pget params "exponent" (.pint 2) = .pint 3 →
      execute_endpoint env reg "sample_math_power" (some params) =
        (.ok ⟨true, "Power calculated", some "8.0"⟩, reg)) ∧
    (∀ ep params q, EndpointRegistry.get reg "sample_math_power" = some ep →
      params.find? (fun p => p.1 == "exponent") = none →
      pget params "base" (.pint 2) = .pfloat q →
      execute_endpoint env reg "sample_math_power" (some params) =
        (.ok ⟨true, "Power calculated", some (pyFloatStr (q ^ (2 : Nat)))⟩, reg)) := by
  refine ⟨?_, ?_, ?_, ?_, ?_, ?_, ?_, ?_, ?_, ?_, ?_⟩
  · intro ep hget
    simp only [execute_endpoint, hget]
    rfl
  · intro ep hget
    simp only [execute_endpoint, hget]
    rfl
  · intro ep hget
    simp only [execute_endpoint, hget]
    rfl
  · intro ep hget
    simp only [execute_endpoint, hget]
    rfl
  · intro ep params q hget hfa hb
    have ha : pget params "a" (.pint 0) = .pint 0 := by unfold pget; rw [hfa]
    have hstrat : executeStrategies env ep "sample_math_add" (some params) =
        .ok ⟨true, "Numbers added", some (pyFloatStr (((0 : Int) : ℚ) + q))⟩ := by
      unfold executeStrategies
      dsimp only [Option.getD]
      rw [ha, hb]
      rfl
    simp only [execute_endpoint, hget, hstrat]
  · intro ep params q hget hfb ha
    have hb : pget params "b" (.pint 0) = .pint 0 := by unfold pget; rw [hfb]
    have hstrat : executeStrategies env ep "sample_math_add" (some params) =
        .ok ⟨true, "Numbers added", some (pyFloatStr (q + ((0 : Int) : ℚ)))⟩ := by
      unfold executeStrategies
      dsimp only [Option.getD]
      rw [ha, hb]
      rfl
    simp only [execute_endpoint, hget, hstrat]
  · intro ep params q hget hfa hb
    have ha : pget params "a" (.pint 1) = .pint 1 := by unfold pget; rw [hfa]
    have hstrat : executeStrategies env ep "sample_math_multiply" (some params) =
        .ok ⟨true, "Numbers multiplied", some (pyFloatStr (((1 : Int) : ℚ) * q))⟩ := by
      unfold executeStrategies
      dsimp only [Option.getD]
      rw [ha, hb]
      rfl
    simp only [execute_endpoint, hget, hstrat]
  · intro ep params q hget hfb ha
    have hb : pget params "b" (.pint 1) = .pint 1 := by unfold pget; rw [hfb]
    have hstrat : executeStrategies env ep "sample_math_multiply" (some params) =
        .ok ⟨true, "Numbers multiplied", some (pyFloatStr (q * ((1 : Int) : ℚ)))⟩ := by
      unfold executeStrategies
      dsimp only [Option.getD]
      rw [ha, hb]
      rfl
    simp only [execute_endpoint, hget, hstrat]
  · intro ep params hget hfb hfe
    have hb : pget params "base" (.pint 2) = .pint 2 := by unfold pget; rw [hfb]
    have he : pget params "exponent" (.pint 2) = .pint 2 := by unfold pget; rw [hfe]
    have hstrat : executeStrategies env ep "sample_math_power" (some params) =
        .ok ⟨true, "Power calculated", some "4.0"⟩ := by
      unfold executeStrategies
      dsimp only [Option.getD]
      rw [hb, he]
      rfl
    simp only [execute_endpoint, hget, hstrat]
  · intro ep params hget hfb he
    have hb : pget params "base" (.pint 2) = .pint 2 := by unfold pget; rw [hfb]
    have hstrat : executeStrategies env ep "sample_math_power" (some params) =
        .ok ⟨true, "Power calculated", some "8.0"⟩ := by
      unfold executeStrategies
      dsimp only [Option.getD]
      rw [hb, he]
      rfl
    simp only [execute_endpoint, hget, hstrat]
  · intro ep params q hget hfe hb
    have he : pget params "exponent" (.pint 2) = .pint 2 := by unfold pget; rw [hfe]
    have hstrat : executeStrategies env ep "sample_math_power" (some params) =
        .ok ⟨true, "Power calculated", some (pyFloatStr (q ^ (2 : Nat)))⟩ := by
      unfold executeStrategies
      dsimp only [Option.getD]
      rw [hb, he]
      rfl
    simp only [execute_endpoint, hget, hstrat]

/-- C6 witness: the uppercase sample on `"abc"`, and the add default at work on
a bag missing `a`. -/
theorem C6_sample_operations_witness :
    execute_endpoint envAll regMain "sample_text_uppercase"
        (some [("input", .pstr "abc")]) =
      (.ok ⟨true, "Text converted to uppercase", some "ABC"⟩, regMain) ∧
    execute_endpoint envAll regMain "sample_math_add" (some [("b", .pfloat 7)]) =
      (.ok ⟨true, "Numbers added", some "7.0"⟩, regMain) :=
  ⟨(C6_sample_operations envAll regMain).1 _ (by rfl),
   (C6_sample_operations envAll regMain).2.2.2.2.1 _ [("b", .pfloat 7)] 7
     (by rfl) (by rfl) (by rfl)⟩

end
